import Mathlib

/-!
Verification of the process-lifecycle and streaming-output component of the
rclone front-end (`RcloneRunner` in `core/rclone.py` plus the progress-line
parser `_update_progress_metrics` in `gui/transfer_tab.py`).

The Python source is shallowly embedded: pure string manipulation becomes
Lean functions over `String` / `List Char`; the subprocess layer is
parameterised by an explicit outcome value (spawn error / completed run /
timeout) describing what the operating system did; the mutable process table
becomes an explicit list of identifiers threaded through an event trace; the
per-line callback becomes the list of strings delivered to the sink.
-/

/-! ## Python string primitives, modelled over `List Char` -/

/-- `pfxAt needle hay`: `needle` occurs at the very start of `hay`
(Python `hay.startswith(needle)` restricted to char lists). -/
def pfxAt : List Char → List Char → Bool
  | [], _ => true
  | _ :: _, [] => false
  | a :: as, b :: bs => a == b && pfxAt as bs

/-- `occursIn needle hay`: `needle` occurs somewhere inside `hay`
(Python's substring test `needle in hay`). -/
def occursIn (needle : List Char) : List Char → Bool
  | [] => pfxAt needle []
  | c :: rest => pfxAt needle (c :: rest) || occursIn needle rest

/-- Python `needle in hay` on strings. -/
def pyIn (needle hay : String) : Bool := occursIn needle.data hay.data

/-- Python `str.split(sep)` for a single-character separator: splits into the
chunks between occurrences of `sep`; always returns at least one chunk. -/
def pySplitOnChar (sep : Char) : List Char → List (List Char)
  | [] => [[]]
  | c :: rest =>
    let ps := pySplitOnChar sep rest
    if c = sep then [] :: ps
    else
      match ps with
      | [] => [[c]]
      | p :: ps' => (c :: p) :: ps'

/-- Remove the longest run of characters satisfying `p` from the right end. -/
def dropTrailing (p : Char → Bool) (l : List Char) : List Char :=
  (l.reverse.dropWhile p).reverse

/-- Python `str.strip()`: remove leading and trailing whitespace. -/
def pyStripChars (l : List Char) : List Char :=
  dropTrailing Char.isWhitespace (l.dropWhile Char.isWhitespace)

/-- Python `str.strip()` on strings. -/
def pyStrip (s : String) : String := String.mk (pyStripChars s.data)

/-- `strLeads p s`: the string `s` starts with `p`. -/
def strLeads (p s : String) : Bool := pfxAt p.data s.data

/-- `strTrails p s`: the string `s` ends with `p`. -/
def strTrails (p s : String) : Bool := pfxAt p.data.reverse s.data.reverse

/-! ## Python values and the option-rendering loop

`RcloneRunner.mount`, `RcloneRunner.transfer` and `RcloneRunner.check_files`
all contain the same loop:

    for key, value in options.items():
        if value is True:
            cmd.append(f"--{key}")
        elif value is not False and value is not None:
            cmd.append(f"--{key}")
            cmd.append(str(value))
-/

/-- The Python values that can appear as an option value: the singletons
`True`, `False`, `None` (tested with `is` in the source), plus strings and
integers as representatives of "any other value". -/
inductive PyVal where
  | vTrue
  | vFalse
  | vNone
  | vStr (s : String)
  | vInt (n : Int)
deriving DecidableEq, Repr

/-- Python `str(value)` on a `PyVal`. -/
def PyVal.str : PyVal → String
  | .vTrue => "True"
  | .vFalse => "False"
  | .vNone => "None"
  | .vStr s => s
  | .vInt n => toString n

namespace RcloneRunner

/-- The option loop shared by `mount` / `transfer` / `check_files`:
starting from the already-built base command `cmd`, append the rendering of
each `(key, value)` pair in order (mirrors the Python `for`/`append` loop). -/
def build_options (cmd : List String) (options : List (String × PyVal)) :
    List String :=
  options.foldl
    (fun acc kv =>
      match kv.2 with
      | .vTrue => acc ++ ["--" ++ kv.1]
      | .vFalse => acc
      | .vNone => acc
      | v => acc ++ ["--" ++ kv.1, v.str])
    cmd

/-- Command (the argument list handed to the rclone binary) built by
`RcloneRunner.mount`. -/
def mount_cmd (remote_path mount_point : String)
    (options : List (String × PyVal)) : List String :=
  build_options ["mount", remote_path, mount_point] options

/-- The `--progress` post-step of `RcloneRunner.transfer`:
`if "--progress" not in cmd and "-P" not in cmd: cmd.append("--progress")`. -/
def add_progress (cmd : List String) : List String :=
  if cmd.contains "--progress" = false ∧ cmd.contains "-P" = false then
    cmd ++ ["--progress"]
  else cmd

/-- Command built by `RcloneRunner.transfer` (before the method check this
would not be reached; the caller models that separately). -/
def transfer_cmd (method source destination : String)
    (options : List (String × PyVal)) : List String :=
  add_progress (build_options [method, source, destination] options)

/-- Command built by `RcloneRunner.check_files` (`check path path`). -/
def check_files_cmd (path : String) (options : List (String × PyVal)) :
    List String :=
  build_options ["check", path, path] options

end RcloneRunner

/-- The per-pair flag-rendering rule exactly as the specification words it:
`True` renders as a bare `--key`; `False`/`None` render as nothing; any
other value renders as `--key` followed by `str(value)`.  Used only to be
compared against the source-derived `build_options` loop. -/
def render_option_rule (kv : String × PyVal) : List String :=
  match kv.2 with
  | .vTrue => ["--" ++ kv.1]
  | .vFalse => []
  | .vNone => []
  | v => ["--" ++ kv.1, v.str]

/-! ## Process identifiers -/

/-- A Python `datetime.datetime` instant, down to microseconds. -/
structure PyDateTime where
  year : Nat
  month : Nat
  day : Nat
  hour : Nat
  minute : Nat
  second : Nat
  micro : Nat
deriving DecidableEq, Repr

/-- Zero-pad the decimal representation of `n` to width `w`
(Python `strftime` field padding). -/
def padZero (w : Nat) (n : Nat) : String :=
  let s := toString n
  String.mk (List.replicate (w - s.length) '0' ++ s.data)

/-- Python `datetime.now().strftime("%Y%m%d%H%M%S")`: note that the
microsecond field does not appear in the output. -/
def strftimeYmdHMS (t : PyDateTime) : String :=
  padZero 4 t.year ++ padZero 2 t.month ++ padZero 2 t.day ++
    padZero 2 t.hour ++ padZero 2 t.minute ++ padZero 2 t.second

/-- Process identifier generation,
`f"mount_{datetime.now().strftime('%Y%m%d%H%M%S')}"` and its `transfer_` /
`ncdu_` siblings. -/
def genProcessId (kind : String) (t : PyDateTime) : String :=
  kind ++ "_" ++ strftimeYmdHMS t

/-! ## Bounded command execution (`RcloneRunner._run_command`) -/

/-- The dictionary returned by `_run_command`:
`{'success': ..., 'error': ..., 'stdout': ..., 'stderr': ...}`. -/
structure CmdResult where
  success : Bool
  error : String
  stdout : String
  stderr : String
deriving DecidableEq, Repr

/-- What the operating system did with a bounded `subprocess.run` call:
the timeout elapsed (`subprocess.TimeoutExpired`), the spawn itself raised
(missing binary, permission denied, ...), or the process ran to completion
with a return code and captured output. -/
inductive RunOutcome where
  | timedOut
  | raised (msg : String)
  | completed (returncode : Int) (stdout stderr : String)
deriving DecidableEq, Repr

namespace RcloneRunner

/-- `RcloneRunner._run_command(args, timeout)`.  The `args` list only feeds
the spawned command, which is abstracted by `outcome`; the function's result
value depends on the configured executable path, the timeout and the
outcome exactly as the chain of `try`/`except` blocks in the source. -/
def run_command (rclone_path : String) (timeout : Option Nat)
    (outcome : RunOutcome) : CmdResult :=
  if rclone_path = "" then
    { success := false, error := "Ruta de rclone no configurada",
      stdout := "", stderr := "" }
  else
    match outcome with
    | .completed rc out err =>
      { success := rc == 0, error := if rc != 0 then err else "",
        stdout := out, stderr := err }
    | .timedOut =>
      { success := false,
        error := "Tiempo de espera agotado (" ++
          (match timeout with | some t => toString t | none => "None") ++ "s)",
        stdout := "", stderr := "" }
    | .raised msg =>
      { success := false, error := msg, stdout := "", stderr := "" }

end RcloneRunner

/-! ## The process table and the worker-thread traces

The shared dictionary `self._running_processes` is modelled by the list of
currently registered identifiers.  A worker thread's effect on the world is
modelled as a trace of atomic events: a delivery of one line to the sink
callback, a registration of an identifier, or a removal.  Python's
`del d[k]` guarded by `if k in d` is a safe no-op when the key is absent,
which `List.erase` reproduces. -/

/-- One observable step of a worker thread. -/
inductive ProcEvent where
  | deliver (line : String)
  | register (id : String)
  | remove (id : String)
deriving DecidableEq, Repr

/-- Apply one event to the table of registered identifiers
(`dict` insert / guarded `del`; deliveries do not touch the table). -/
def applyEvent (table : List String) : ProcEvent → List String
  | .deliver _ => table
  | .register id => if id ∈ table then table else table ++ [id]
  | .remove id => table.erase id

/-- Run a trace of events against an initial table. -/
def runEvents (table : List String) (events : List ProcEvent) : List String :=
  events.foldl applyEvent table

/-- The lines delivered to the sink along a trace, in order. -/
def deliveriesOf (events : List ProcEvent) : List String :=
  events.filterMap fun e =>
    match e with
    | .deliver s => some s
    | _ => none

/-- What the operating system did with a streaming `subprocess.Popen` call:
either the spawn raised, or the process started, produced `lines` on its
combined stdout/stderr stream and exited with `returncode`. -/
inductive StreamOutcome where
  | spawnRaised (msg : String)
  | started (lines : List String) (returncode : Int)
deriving DecidableEq, Repr

/-- The process-output lines of a streaming outcome (empty if the spawn
failed). -/
def StreamOutcome.lines : StreamOutcome → List String
  | .spawnRaised _ => []
  | .started ls _ => ls

/-- What the operating system did with the plain `subprocess.Popen` call of
`_run_long_process`: the spawn raised, or the process ran and exited. -/
inductive LongOutcome where
  | spawnRaised (msg : String)
  | ran
deriving DecidableEq, Repr

namespace RcloneRunner

/-- `RcloneRunner._run_long_process(args, process_id)` as an event trace.
With an empty executable path the function returns at once and touches
nothing.  Otherwise it spawns, registers the identifier, waits, and removes
the identifier; if the spawn raised, the `except` block only performs the
guarded removal (a no-op, since nothing was registered). -/
def run_long_process (rclone_path process_id : String)
    (outcome : LongOutcome) : List ProcEvent :=
  if rclone_path = "" then []
  else
    match outcome with
    | .spawnRaised _ => [.remove process_id]
    | .ran => [.register process_id, .remove process_id]

/-- `RcloneRunner._run_process_with_output(args, process_id, callback)` as an
event trace.  `has_callback` records whether a callback was supplied
(`if callback:` guards every delivery).  With an empty executable path the
function returns at once.  Otherwise it spawns, registers the identifier,
delivers every output line in order, waits, delivers the
`__RETURN_CODE:<n>__` marker, and removes the identifier.  If the spawn
raised, the `except` block delivers the `__ERROR:<message>__` marker and
performs the guarded removal. -/
def run_process_with_output (rclone_path process_id : String)
    (has_callback : Bool) (outcome : StreamOutcome) : List ProcEvent :=
  if rclone_path = "" then []
  else
    match outcome with
    | .spawnRaised msg =>
      (if has_callback then [.deliver ("__ERROR:" ++ msg ++ "__")] else []) ++
        [.remove process_id]
    | .started lines rc =>
      [.register process_id] ++
        (if has_callback then lines.map ProcEvent.deliver else []) ++
        (if has_callback
          then [.deliver ("__RETURN_CODE:" ++ toString rc ++ "__")] else []) ++
        [.remove process_id]

end RcloneRunner

/-- A string of the shape of one of the two synthesized terminal markers:
it starts with `__RETURN_CODE:` or `__ERROR:` and ends with `__`. -/
def isTerminalMarker (s : String) : Bool :=
  (strLeads "__RETURN_CODE:" s || strLeads "__ERROR:" s) && strTrails "__" s

/-! ## Launch operations (`mount`, `transfer`) and termination
(`cancel_transfer`, `unmount`) -/

/-- The dictionary `mount` (and the success branch of `transfer`) returns:
`{'process_id': ..., 'command': ..., 'status': "iniciado"}`. -/
structure LaunchInfo where
  process_id : String
  command : List String
  status : String
deriving DecidableEq, Repr

/-- What `transfer` returns: either the early
`{'success': False, 'error': ...}` dictionary produced by the method check,
or a `LaunchInfo` dictionary. -/
inductive TransferReturn where
  | invalid (success : Bool) (error : String)
  | launched (info : LaunchInfo)
deriving DecidableEq, Repr

/-- The dictionary returned by `unmount` / `cancel_transfer`: Python uses a
`'message'` key on success and an `'error'` key on failure; the absent key
is modelled as `""`. -/
structure TermResult where
  success : Bool
  message : String
  error : String
deriving DecidableEq, Repr

namespace RcloneRunner

/-- `RcloneRunner.mount(remote_path, mount_point, options)` — the value the
call returns.  There is no failure branch: the method always builds the
command, generates an identifier, starts the worker thread, sleeps one
second and returns the `"iniciado"` dictionary.  `t` is the wall-clock
instant `datetime.now()` observed when the identifier is generated. -/
def mount (rclone_path remote_path mount_point : String)
    (options : List (String × PyVal)) (t : PyDateTime) : LaunchInfo :=
  { process_id := genProcessId "mount" t,
    command := rclone_path :: mount_cmd remote_path mount_point options,
    status := "iniciado" }

/-- The worker-thread trace spawned by `mount`: `_run_long_process` on the
built command with the generated identifier. -/
def mount_trace (rclone_path remote_path mount_point : String)
    (options : List (String × PyVal)) (t : PyDateTime)
    (outcome : LongOutcome) : List ProcEvent :=
  run_long_process rclone_path (genProcessId "mount" t) outcome

/-- `RcloneRunner.transfer(source, destination, method, options, callback)` —
the value the call returns.  A method outside `copy`/`move`/`sync` is
rejected before any command is built or identifier generated. -/
def transfer (rclone_path source destination method : String)
    (options : List (String × PyVal)) (t : PyDateTime) : TransferReturn :=
  if method ∉ (["copy", "move", "sync"] : List String) then
    .invalid false ("Método no válido: " ++ method)
  else
    .launched
      { process_id := genProcessId "transfer" t,
        command :=
          rclone_path :: transfer_cmd method source destination options,
        status := "iniciado" }

/-- The worker-thread trace spawned by `transfer`: empty when the method
check rejects the call (no thread is started), otherwise
`_run_process_with_output` on the built command. -/
def transfer_trace (rclone_path method : String) (t : PyDateTime)
    (has_callback : Bool) (outcome : StreamOutcome) : List ProcEvent :=
  if method ∉ (["copy", "move", "sync"] : List String) then []
  else run_process_with_output rclone_path (genProcessId "transfer" t)
    has_callback outcome

/-- `RcloneRunner.cancel_transfer(process_id)`.  `terminate_raised` is the
exception message if the `process.terminate()` call raised, `none` if it
succeeded.  Returns the result dictionary and the table after the call. -/
def cancel_transfer (table : List String) (process_id : String)
    (terminate_raised : Option String) : TermResult × List String :=
  if process_id ∈ table then
    match terminate_raised with
    | none =>
      ({ success := true, message := "Proceso cancelado: " ++ process_id,
         error := "" }, table.erase process_id)
    | some e =>
      ({ success := false, message := "",
         error := "Error al cancelar proceso: " ++ e }, table)
  else
    ({ success := false, message := "",
       error := "No se encontró el proceso: " ++ process_id }, table)

end RcloneRunner

/-- The platform branch taken by `unmount`'s fallback
(`platform.system() == "Windows"`). -/
inductive Platform where
  | windows
  | posix
deriving DecidableEq, Repr

/-- What the operating system did with the fallback shell-out
(`net use ... /delete` or `fusermount -u ...`): the call raised, or ran and
returned a code plus captured stderr. -/
inductive OsCmdOutcome where
  | raised (msg : String)
  | ran (returncode : Int) (stderr : String)
deriving DecidableEq, Repr

namespace RcloneRunner

/-- The OS-level fallback path of `unmount` (everything after the
registered-process branch). -/
def unmount_fallback (table : List String) (mount_point : String)
    (plat : Platform) (os : OsCmdOutcome) : TermResult × List String :=
  match plat with
  | .windows =>
    let drive_letter := String.mk (dropTrailing (fun c => c = '\\' ∨ c = ':') mount_point.data)
    if drive_letter.length = 1 then
      match os with
      | .raised e =>
        ({ success := false, message := "",
           error := "Error al desmontar: " ++ e }, table)
      | .ran rc err =>
        ({ success := rc == 0, message := "",
           error := if rc != 0 then err else "" }, table)
    else
      ({ success := false, message := "",
         error := "No se pudo desmontar el punto de montaje" }, table)
  | .posix =>
    match os with
    | .raised e =>
      ({ success := false, message := "",
         error := "Error al desmontar: " ++ e }, table)
    | .ran rc err =>
      ({ success := rc == 0, message := "",
         error := if rc != 0 then err else "" }, table)

/-- `RcloneRunner.unmount(mount_point, process_id)`.  The registered-process
branch requires a truthy `process_id` (`if process_id and process_id in
self._running_processes:`); otherwise the platform fallback runs. -/
def unmount (table : List String) (mount_point : String)
    (process_id : Option String) (plat : Platform)
    (terminate_raised : Option String) (os : OsCmdOutcome) :
    TermResult × List String :=
  match process_id with
  | some p =>
    if p ≠ "" ∧ p ∈ table then
      match terminate_raised with
      | none =>
        ({ success := true,
           message := "Proceso de montaje terminado: " ++ p,
           error := "" }, table.erase p)
      | some e =>
        ({ success := false, message := "",
           error := "Error al terminar proceso: " ++ e }, table)
    else unmount_fallback table mount_point plat os
  | none => unmount_fallback table mount_point plat os

end RcloneRunner

/-! ## The progress-line parser (`TransferTab._update_progress_metrics`)

The widget state touched by the method is modelled as a record: the four
`StringVar`s, the status `StringVar`, and the progress bar (mode plus
value).  The bar value is produced by Python's `float(...)`, which is
abstracted as a caller-supplied partial parse `pf : String → Option F`
(Python `float` semantics is floating point; every theorem below holds for
an arbitrary parse function).

The whole body runs inside `try: ... except Exception: pass`.  The one
statement that can raise is the f-string
`self.transfer_status.set(f"{transferred} a {speed}")`: the local variables
`transferred` and `speed` are only bound inside their guarding `if`s, so
whenever either guard did not fire the f-string raises `NameError`, the
`except` swallows it, and the mutations already performed stick while the
percent loop after the f-string never runs. -/

/-- The mutable widget state read and written by
`_update_progress_metrics`. -/
structure ProgressState (F : Type) where
  transferred : String
  speed : String
  eta : String
  files : String
  status : String
  barDeterminate : Bool
  barValue : Option F
deriving DecidableEq, Repr

/-- The comma-separated segments of the stripped line:
`parts = line.strip().split(",")`. -/
def parseParts (line : String) : List (List Char) :=
  pySplitOnChar ',' (pyStripChars line.data)

/-- `part.split(":")[1].strip()` — the text after the first `:` of a
segment.  (Every use in the source is guarded by a containment test for a
label that itself contains `:`, so index 1 exists there.) -/
def afterColon (part : List Char) : String :=
  String.mk (pyStripChars ((pySplitOnChar ':' part).getD 1 []))

/-- `if "Transferred:" in parts[0]: transferred = parts[0].split(":")[1].strip()`. -/
def transferredOpt (parts : List (List Char)) : Option String :=
  if occursIn "Transferred:".data (parts.getD 0 []) = true then
    some (afterColon (parts.getD 0 []))
  else none

/-- `if len(parts) > 1 and "Speed:" in parts[1]: ...` — note the positional
index: only the second comma segment is ever examined for `Speed:`. -/
def speedOpt (parts : List (List Char)) : Option String :=
  if 1 < parts.length then
    if occursIn "Speed:".data (parts.getD 1 []) = true then
      some (afterColon (parts.getD 1 []))
    else none
  else none

/-- `if len(parts) > 2 and "ETA:" in parts[2]: ...` — only the third comma
segment is ever examined for `ETA:`. -/
def etaOpt (parts : List (List Char)) : Option String :=
  if 2 < parts.length then
    if occursIn "ETA:".data (parts.getD 2 []) = true then
      some (afterColon (parts.getD 2 []))
    else none
  else none

/-- The `for part in parts: if "Files:" in part: ...; break` loop: the first
segment containing `Files:`. -/
def filesOpt (parts : List (List Char)) : Option String :=
  (parts.find? fun p => occursIn "Files:".data p).map afterColon

/-- The `for part in parts: if "%" in part: ...; break` loop: the first
segment containing `%`. -/
def percentPart (parts : List (List Char)) : Option (List Char) :=
  parts.find? fun p => p.contains '%'

/-- `TransferTab._update_progress_metrics(line)` as a state transformer. -/
def update_progress_metrics {F : Type} (pf : String → Option F)
    (line : String) (st : ProgressState F) : ProgressState F :=
  let parts := parseParts line
  let st1 :=
    match transferredOpt parts with
    | some v => { st with transferred := v }
    | none => st
  let st2 :=
    match speedOpt parts with
    | some v => { st1 with speed := v }
    | none => st1
  let st3 :=
    match etaOpt parts with
    | some v => { st2 with eta := v }
    | none => st2
  let st4 :=
    match filesOpt parts with
    | some v => { st3 with files := v }
    | none => st3
  match transferredOpt parts, speedOpt parts with
  | some tv, some sv =>
    let st5 := { st4 with status := tv ++ " a " ++ sv }
    match percentPart parts with
    | some p =>
      match pf (String.mk (dropTrailing (fun c => c = '%') (pyStripChars p))) with
      | some v => { st5 with barDeterminate := true, barValue := some v }
      | none => st5
    | none => st5
  | _, _ => st4


/-! ## Helper lemmas -/

theorem build_options_eq (cmd : List String) (options : List (String × PyVal)) :
    RcloneRunner.build_options cmd options =
      cmd ++ (options.map render_option_rule).flatten := by
  induction options generalizing cmd with
  | nil => simp [RcloneRunner.build_options]
  | cons kv rest ih =>
    obtain ⟨k, v⟩ := kv
    have hstep : RcloneRunner.build_options cmd ((k, v) :: rest) =
        RcloneRunner.build_options (cmd ++ render_option_rule (k, v)) rest := by
      cases v <;> simp [RcloneRunner.build_options, render_option_rule]
    rw [hstep, ih]
    simp [List.append_assoc]

theorem pfxAt_self_append (l t : List Char) : pfxAt l (l ++ t) = true := by
  induction l with
  | nil => rfl
  | cons a as ih => simp [pfxAt, ih]

theorem strLeads_append (p r : String) : strLeads p (p ++ r) = true := by
  simp [strLeads, String.data_append, pfxAt_self_append]

theorem strTrails_append (s pre : String) : strTrails s (pre ++ s) = true := by
  simp [strTrails, String.data_append, List.reverse_append, pfxAt_self_append]

theorem isTerminalMarker_error (msg : String) :
    isTerminalMarker ("__ERROR:" ++ msg ++ "__") = true := by
  have h1 : strLeads "__ERROR:" ("__ERROR:" ++ msg ++ "__") = true := by
    rw [String.append_assoc]; exact strLeads_append _ _
  have h2 : strTrails "__" ("__ERROR:" ++ msg ++ "__") = true := strTrails_append _ _
  simp [isTerminalMarker, h1, h2]

theorem isTerminalMarker_rc (rc : Int) :
    isTerminalMarker ("__RETURN_CODE:" ++ toString rc ++ "__") = true := by
  have h1 : strLeads "__RETURN_CODE:" ("__RETURN_CODE:" ++ toString rc ++ "__") = true := by
    rw [String.append_assoc]; exact strLeads_append _ _
  have h2 : strTrails "__" ("__RETURN_CODE:" ++ toString rc ++ "__") = true :=
    strTrails_append _ _
  simp [isTerminalMarker, h1, h2]

theorem deliveriesOf_append (a b : List ProcEvent) :
    deliveriesOf (a ++ b) = deliveriesOf a ++ deliveriesOf b := by
  simp [deliveriesOf]

theorem deliveriesOf_map_deliver (lines : List String) :
    deliveriesOf (lines.map ProcEvent.deliver) = lines := by
  induction lines with
  | nil => rfl
  | cons l rest ih => simpa [deliveriesOf] using ih

theorem runEvents_map_deliver (table : List String) (lines : List String) :
    runEvents table (lines.map ProcEvent.deliver) = table := by
  induction lines with
  | nil => rfl
  | cons l rest ih => simpa [runEvents, applyEvent] using ih

theorem runEvents_append (table : List String) (a b : List ProcEvent) :
    runEvents table (a ++ b) = runEvents (runEvents table a) b := by
  simp [runEvents]

theorem runEvents_cons (table : List String) (e : ProcEvent)
    (rest : List ProcEvent) :
    runEvents table (e :: rest) = runEvents (applyEvent table e) rest := rfl

theorem runEvents_nil (table : List String) : runEvents table [] = table := rfl

theorem deliveriesOf_cons_deliver (s : String) (rest : List ProcEvent) :
    deliveriesOf (ProcEvent.deliver s :: rest) = s :: deliveriesOf rest := by
  simp [deliveriesOf]

theorem deliveriesOf_cons_register (id : String) (rest : List ProcEvent) :
    deliveriesOf (ProcEvent.register id :: rest) = deliveriesOf rest := by
  simp [deliveriesOf]

theorem deliveriesOf_cons_remove (id : String) (rest : List ProcEvent) :
    deliveriesOf (ProcEvent.remove id :: rest) = deliveriesOf rest := by
  simp [deliveriesOf]

theorem deliveriesOf_nil : deliveriesOf [] = [] := rfl

/-! ## Claim theorems -/

/-- C2: every options mapping passed to `mount`, `transfer` or `check_files`
is rendered by one uniform per-pair rule — `True` gives the single argument
`--key`, `False`/`None` give nothing, any other value gives `--key`
followed by `str(value)` — and in particular `read-only: True` renders to
`--read-only`, `drive-chunk-size: "32M"` renders to the two arguments
`--drive-chunk-size 32M`, and `allow-other: False` renders to nothing. -/
theorem C2_option_rendering (remote_path mount_point source destination
    method path : String) (options : List (String × PyVal)) :
    RcloneRunner.mount_cmd remote_path mount_point options =
      ["mount", remote_path, mount_point] ++
        (options.map render_option_rule).flatten
    ∧ RcloneRunner.transfer_cmd method source destination options =
      RcloneRunner.add_progress ([method, source, destination] ++
        (options.map render_option_rule).flatten)
    ∧ RcloneRunner.check_files_cmd path options =
      ["check", path, path] ++ (options.map render_option_rule).flatten
    ∧ render_option_rule ("read-only", PyVal.vTrue) = ["--read-only"]
    ∧ render_option_rule ("drive-chunk-size", PyVal.vStr "32M") =
      ["--drive-chunk-size", "32M"]
    ∧ render_option_rule ("allow-other", PyVal.vFalse) = [] := by
  refine ⟨build_options_eq _ _, ?_, build_options_eq _ _, rfl, rfl, rfl⟩
  unfold RcloneRunner.transfer_cmd
  rw [build_options_eq]

/-- C4: the claim promises distinct identifiers for every pair of launches
at any two launch times, but the identifier only encodes the wall clock at
one-second granularity: two mount launches 500 ms apart produce the very
same identifier `mount_20260101120000`. -/
theorem C4_id_collision :
    (⟨2026, 1, 1, 12, 0, 0, 0⟩ : PyDateTime) ≠ ⟨2026, 1, 1, 12, 0, 0, 500000⟩
    ∧ genProcessId "mount" ⟨2026, 1, 1, 12, 0, 0, 0⟩ =
        genProcessId "mount" ⟨2026, 1, 1, 12, 0, 0, 500000⟩
    ∧ genProcessId "mount" ⟨2026, 1, 1, 12, 0, 0, 0⟩ =
        "mount_20260101120000" := by
  refine ⟨by decide, by decide, by decide⟩

/-- C6: `_run_command` always produces a structured result: with no
executable path configured it fails without consulting the spawn outcome at
all; a timeout gives the timeout failure message; a spawn exception gives a
failure carrying the exception text; a non-zero exit gives
`success = false` with `error` equal to the captured stderr. -/
theorem C6_run_command (timeout : Nat) (path msg out err : String) (rc : Int)
    (outcome : RunOutcome) :
    RcloneRunner.run_command "" (some timeout) outcome =
      { success := false, error := "Ruta de rclone no configurada",
        stdout := "", stderr := "" }
    ∧ (path ≠ "" → RcloneRunner.run_command path (some timeout) .timedOut =
      { success := false,
        error := "Tiempo de espera agotado (" ++ toString timeout ++ "s)",
        stdout := "", stderr := "" })
    ∧ (path ≠ "" →
      RcloneRunner.run_command path (some timeout) (.raised msg) =
      { success := false, error := msg, stdout := "", stderr := "" })
    ∧ (path ≠ "" → rc ≠ 0 →
      (RcloneRunner.run_command path (some timeout)
        (.completed rc out err)).success = false
      ∧ (RcloneRunner.run_command path (some timeout)
        (.completed rc out err)).error = err) := by
  refine ⟨by simp [RcloneRunner.run_command], ?_, ?_, ?_⟩
  · intro h
    simp [RcloneRunner.run_command, h]
  · intro h
    simp [RcloneRunner.run_command, h]
  · intro h hrc
    simp [RcloneRunner.run_command, h, hrc]

/-- Witness for C6 at concrete inputs. -/
theorem C6_run_command_witness :
    RcloneRunner.run_command "/usr/bin/rclone" (some 5) RunOutcome.timedOut =
      { success := false,
        error := "Tiempo de espera agotado (" ++ toString 5 ++ "s)",
        stdout := "", stderr := "" }
    ∧ (RcloneRunner.run_command "/usr/bin/rclone" (some 5)
        (RunOutcome.completed 2 "o" "e")).success = false
    ∧ (RcloneRunner.run_command "/usr/bin/rclone" (some 5)
        (RunOutcome.completed 2 "o" "e")).error = "e" :=
  ⟨(C6_run_command 5 "/usr/bin/rclone" "boom" "o" "e" 2 .timedOut).2.1
      (by decide),
   ((C6_run_command 5 "/usr/bin/rclone" "boom" "o" "e" 2 .timedOut).2.2.2
      (by decide) (by decide)).1,
   ((C6_run_command 5 "/usr/bin/rclone" "boom" "o" "e" 2 .timedOut).2.2.2
      (by decide) (by decide)).2⟩

/-- C9: a transfer method outside `copy`/`move`/`sync` is rejected up front
with a structured failure naming the method; no worker thread runs, so no
identifier is registered and the sink callback is never invoked. -/
theorem C9_invalid_method (rclone_path source destination method : String)
    (options : List (String × PyVal)) (t : PyDateTime) (has_callback : Bool)
    (outcome : StreamOutcome)
    (h : method ∉ (["copy", "move", "sync"] : List String)) :
    RcloneRunner.transfer rclone_path source destination method options t =
      .invalid false ("Método no válido: " ++ method)
    ∧ RcloneRunner.transfer_trace rclone_path method t has_callback outcome = []
    ∧ deliveriesOf
        (RcloneRunner.transfer_trace rclone_path method t has_callback outcome)
        = []
    ∧ runEvents []
        (RcloneRunner.transfer_trace rclone_path method t has_callback outcome)
        = [] := by
  refine ⟨?_, ?_, ?_, ?_⟩ <;>
    simp [RcloneRunner.transfer, RcloneRunner.transfer_trace, h,
      deliveriesOf, runEvents]

/-- Witness for C9 at the concrete method `"delete"`. -/
theorem C9_invalid_method_witness :
    RcloneRunner.transfer "/usr/bin/rclone" "src:" "dst:" "delete" []
        ⟨2026, 1, 1, 12, 0, 0, 0⟩ =
      .invalid false ("Método no válido: " ++ "delete")
    ∧ RcloneRunner.transfer_trace "/usr/bin/rclone" "delete"
        ⟨2026, 1, 1, 12, 0, 0, 0⟩ true (.started [] 0) = []
    ∧ deliveriesOf (RcloneRunner.transfer_trace "/usr/bin/rclone" "delete"
        ⟨2026, 1, 1, 12, 0, 0, 0⟩ true (.started [] 0)) = []
    ∧ runEvents [] (RcloneRunner.transfer_trace "/usr/bin/rclone" "delete"
        ⟨2026, 1, 1, 12, 0, 0, 0⟩ true (.started [] 0)) = [] :=
  C9_invalid_method "/usr/bin/rclone" "src:" "dst:" "delete" []
    ⟨2026, 1, 1, 12, 0, 0, 0⟩ true (.started [] 0) (by decide)

/-- C10: with an empty executable path, `mount` still returns a dictionary
with a generated identifier and status `"iniciado"`, while the worker
(`_run_long_process`) returns without doing anything: the identifier never
enters the process table and nothing is ever delivered to anyone. -/
theorem C10_mount_empty_path (remote_path mount_point : String)
    (options : List (String × PyVal)) (t : PyDateTime)
    (outcome : LongOutcome) :
    (RcloneRunner.mount "" remote_path mount_point options t).status =
      "iniciado"
    ∧ (RcloneRunner.mount "" remote_path mount_point options t).process_id =
      genProcessId "mount" t
    ∧ RcloneRunner.mount_trace "" remote_path mount_point options t outcome
      = []
    ∧ runEvents []
        (RcloneRunner.mount_trace "" remote_path mount_point options t outcome)
      = []
    ∧ deliveriesOf
        (RcloneRunner.mount_trace "" remote_path mount_point options t outcome)
      = [] := by
  refine ⟨rfl, rfl, ?_, ?_, ?_⟩ <;>
    simp [RcloneRunner.mount_trace, RcloneRunner.run_long_process,
      runEvents, deliveriesOf]

/-- C1 (counterexample to the claim as stated): with the empty executable
path, `_run_process_with_output` returns before spawning and before any
callback — the sink receives zero deliveries and hence zero terminal
markers, not exactly one. -/
theorem C1_empty_path_counterexample :
    deliveriesOf (RcloneRunner.run_process_with_output ""
      "transfer_20260101120000" true (.started ["a line"] 0)) = []
    ∧ (deliveriesOf (RcloneRunner.run_process_with_output ""
        "transfer_20260101120000" true (.started ["a line"] 0))).countP
        (fun s => isTerminalMarker s) = 0 := by
  refine ⟨rfl, rfl⟩

/-- C1 (amended): for every streaming invocation whose executable path is
non-empty, the sink receives exactly one terminal marker — the
`__RETURN_CODE:<n>__` line when the process ran, the `__ERROR:<message>__`
line when the spawn raised — and that marker is the last delivery
(provided, as in practice, no process-output line itself has marker
shape). -/
theorem C1_terminal_marker (rclone_path process_id : String)
    (outcome : StreamOutcome) (hpath : rclone_path ≠ "")
    (hlines : ∀ l ∈ outcome.lines, isTerminalMarker l = false) :
    ∃ pre last,
      deliveriesOf (RcloneRunner.run_process_with_output rclone_path
        process_id true outcome) = pre ++ [last]
      ∧ isTerminalMarker last = true
      ∧ ∀ l ∈ pre, isTerminalMarker l = false := by
  cases outcome with
  | spawnRaised msg =>
    refine ⟨[], "__ERROR:" ++ msg ++ "__", ?_, isTerminalMarker_error msg,
      by simp⟩
    simp [RcloneRunner.run_process_with_output, hpath, deliveriesOf]
  | started lines rc =>
    refine ⟨lines, "__RETURN_CODE:" ++ toString rc ++ "__", ?_,
      isTerminalMarker_rc rc, fun l hl => hlines l hl⟩
    simp [RcloneRunner.run_process_with_output, if_neg hpath,
      deliveriesOf_append, deliveriesOf_map_deliver,
      deliveriesOf_cons_register, deliveriesOf_cons_deliver,
      deliveriesOf_cons_remove, deliveriesOf_nil]

/-- Witness for C1 at a concrete invocation. -/
theorem C1_terminal_marker_witness :
    ∃ pre last,
      deliveriesOf (RcloneRunner.run_process_with_output "/usr/bin/rclone"
        "transfer_20260101120000" true
        (.started ["Transferred: 1 MiB / 2 MiB"] 0)) = pre ++ [last]
      ∧ isTerminalMarker last = true
      ∧ ∀ l ∈ pre, isTerminalMarker l = false :=
  C1_terminal_marker "/usr/bin/rclone" "transfer_20260101120000"
    (.started ["Transferred: 1 MiB / 2 MiB"] 0) (by decide) (by decide)

/-- C5 (counterexample to the claim as stated): `mount` with the empty
executable path returns an identifier, yet the worker trace is empty, so
the identifier is not in the active set when the call returns (nor ever). -/
theorem C5_counterexample :
    (RcloneRunner.mount "" "gdrive:" "/mnt/g" []
      ⟨2026, 1, 1, 12, 0, 0, 0⟩).process_id = "mount_20260101120000"
    ∧ RcloneRunner.mount_trace "" "gdrive:" "/mnt/g" []
      ⟨2026, 1, 1, 12, 0, 0, 0⟩ LongOutcome.ran = []
    ∧ "mount_20260101120000" ∉
      runEvents [] (RcloneRunner.mount_trace "" "gdrive:" "/mnt/g" []
        ⟨2026, 1, 1, 12, 0, 0, 0⟩ LongOutcome.ran) := by
  refine ⟨by decide, rfl, by decide⟩

/-- C5 (amended): for a launch with a non-empty executable path whose spawn
succeeds, the identifier is in the active set from the worker's
registration step on, is gone after the worker finishes (the process
exited), and is gone immediately after `cancel_transfer` deregisters it. -/
theorem C5_registration_lifecycle (rclone_path pid : String)
    (lines : List String) (rc : Int) (table : List String)
    (hpath : rclone_path ≠ "") (hfresh : pid ∉ table) :
    pid ∈ runEvents table ((RcloneRunner.run_process_with_output rclone_path
      pid true (.started lines rc)).take 1)
    ∧ pid ∉ runEvents table (RcloneRunner.run_process_with_output rclone_path
      pid true (.started lines rc))
    ∧ pid ∈ runEvents table ((RcloneRunner.run_long_process rclone_path pid
      .ran).take 1)
    ∧ pid ∉ runEvents table (RcloneRunner.run_long_process rclone_path pid
      .ran)
    ∧ (RcloneRunner.cancel_transfer (table ++ [pid]) pid none).2 = table := by
  have herase : (table ++ [pid]).erase pid = table := by
    rw [List.erase_append_right _ hfresh, List.erase_cons_head,
      List.append_nil]
  refine ⟨?_, ?_, ?_, ?_, ?_⟩
  · simp [RcloneRunner.run_process_with_output, if_neg hpath, runEvents,
      applyEvent, hfresh]
  · have h2 : runEvents table (RcloneRunner.run_process_with_output
        rclone_path pid true (.started lines rc)) = table := by
      simp [RcloneRunner.run_process_with_output, if_neg hpath,
        runEvents_append, runEvents_cons, runEvents_nil,
        runEvents_map_deliver, applyEvent, hfresh, herase]
    rw [h2]
    exact hfresh
  · simp [RcloneRunner.run_long_process, if_neg hpath, runEvents, applyEvent,
      hfresh]
  · have h2 : runEvents table (RcloneRunner.run_long_process rclone_path pid
        .ran) = table := by
      simp [RcloneRunner.run_long_process, if_neg hpath, runEvents_cons,
        runEvents_nil, applyEvent, hfresh, herase]
    rw [h2]
    exact hfresh
  · simp [RcloneRunner.cancel_transfer, herase]

/-- Witness for C5 at a concrete launch. -/
theorem C5_registration_lifecycle_witness :
    "transfer_20260101120000" ∈ runEvents []
      ((RcloneRunner.run_process_with_output "/usr/bin/rclone"
        "transfer_20260101120000" true (.started ["l1"] 0)).take 1)
    ∧ "transfer_20260101120000" ∉ runEvents []
      (RcloneRunner.run_process_with_output "/usr/bin/rclone"
        "transfer_20260101120000" true (.started ["l1"] 0))
    ∧ "transfer_20260101120000" ∈ runEvents []
      ((RcloneRunner.run_long_process "/usr/bin/rclone"
        "transfer_20260101120000" .ran).take 1)
    ∧ "transfer_20260101120000" ∉ runEvents []
      (RcloneRunner.run_long_process "/usr/bin/rclone"
        "transfer_20260101120000" .ran)
    ∧ (RcloneRunner.cancel_transfer ([] ++ ["transfer_20260101120000"])
        "transfer_20260101120000" none).2 = [] :=
  C5_registration_lifecycle "/usr/bin/rclone" "transfer_20260101120000"
    ["l1"] 0 [] (by decide) (by decide)

/-- C7: termination never raises and follows the registered/unregistered
dichotomy: a registered identifier is terminated, deregistered at once and
reported as success; an unregistered identifier makes `cancel_transfer`
return the structured not-found failure with the table untouched, while
`unmount` runs the platform fallback and reports that outcome
(`fusermount -u` on posix, `net use /delete` for a drive letter on
Windows), and when no fallback applies (Windows, non-drive-letter mount
point) it returns the structured could-not-unmount failure. -/
theorem C7_terminate (table : List String) (p mp serr : String) (rc : Int)
    (plat : Platform) (os : OsCmdOutcome) :
    (p ∈ table → table.Nodup →
      (RcloneRunner.cancel_transfer table p none).1.success = true
      ∧ (RcloneRunner.cancel_transfer table p none).1.message =
        "Proceso cancelado: " ++ p
      ∧ p ∉ (RcloneRunner.cancel_transfer table p none).2)
    ∧ (p ∉ table →
      (RcloneRunner.cancel_transfer table p none).1.success = false
      ∧ (RcloneRunner.cancel_transfer table p none).1.error =
        "No se encontró el proceso: " ++ p
      ∧ (RcloneRunner.cancel_transfer table p none).2 = table)
    ∧ (p ∈ table → p ≠ "" → table.Nodup →
      (RcloneRunner.unmount table mp (some p) plat none os).1.success = true
      ∧ p ∉ (RcloneRunner.unmount table mp (some p) plat none os).2)
    ∧ (p ∉ table →
      RcloneRunner.unmount table mp (some p) .posix none (.ran rc serr) =
        ({ success := rc == 0, message := "",
           error := if rc != 0 then serr else "" }, table))
    ∧ ((String.mk (dropTrailing (fun c => c = '\\' ∨ c = ':') mp.data)).length
        ≠ 1 →
      RcloneRunner.unmount table mp none .windows none os =
        ({ success := false, message := "",
           error := "No se pudo desmontar el punto de montaje" }, table)) := by
  refine ⟨?_, ?_, ?_, ?_, ?_⟩
  · intro hp hnd
    refine ⟨by simp [RcloneRunner.cancel_transfer, hp],
      by simp [RcloneRunner.cancel_transfer, hp], ?_⟩
    simp only [RcloneRunner.cancel_transfer, if_pos hp]
    exact hnd.not_mem_erase
  · intro hp
    refine ⟨by simp [RcloneRunner.cancel_transfer, hp],
      by simp [RcloneRunner.cancel_transfer, hp],
      by simp [RcloneRunner.cancel_transfer, hp]⟩
  · intro hp hne hnd
    refine ⟨by simp [RcloneRunner.unmount, hp, hne], ?_⟩
    simp only [RcloneRunner.unmount, if_pos (And.intro hne hp)]
    exact hnd.not_mem_erase
  · intro hp
    have : ¬ (p ≠ "" ∧ p ∈ table) := fun h => hp h.2
    simp [RcloneRunner.unmount, this, RcloneRunner.unmount_fallback]
  · intro hlen
    show RcloneRunner.unmount_fallback table mp .windows os = _
    simp only [RcloneRunner.unmount_fallback]
    rw [if_neg hlen]

/-- Witness for C7 at concrete inputs. -/
theorem C7_terminate_witness :
    ((RcloneRunner.cancel_transfer ["transfer_20260101120000"]
        "transfer_20260101120000" none).1.success = true
      ∧ (RcloneRunner.cancel_transfer ["transfer_20260101120000"]
        "transfer_20260101120000" none).1.message =
        "Proceso cancelado: " ++ "transfer_20260101120000"
      ∧ "transfer_20260101120000" ∉
        (RcloneRunner.cancel_transfer ["transfer_20260101120000"]
          "transfer_20260101120000" none).2)
    ∧ ((RcloneRunner.cancel_transfer [] "transfer_20260101120000"
        none).1.success = false
      ∧ (RcloneRunner.cancel_transfer [] "transfer_20260101120000"
        none).1.error =
        "No se encontró el proceso: " ++ "transfer_20260101120000"
      ∧ (RcloneRunner.cancel_transfer [] "transfer_20260101120000" none).2
        = [])
    ∧ ((RcloneRunner.unmount ["mount_20260101120000"] "/mnt/g"
        (some "mount_20260101120000") .posix none
        (.ran 0 "")).1.success = true
      ∧ "mount_20260101120000" ∉ (RcloneRunner.unmount
        ["mount_20260101120000"] "/mnt/g" (some "mount_20260101120000")
        .posix none (.ran 0 "")).2)
    ∧ RcloneRunner.unmount [] "/mnt/g" (some "mount_20260101120000") .posix
        none (.ran 1 "fuse: not mounted") =
      ({ success := (1 : Int) == 0, message := "",
         error := if (1 : Int) != 0 then "fuse: not mounted" else "" }, [])
    ∧ RcloneRunner.unmount [] "/mnt/g" none .windows none (.ran 0 "") =
      ({ success := false, message := "",
         error := "No se pudo desmontar el punto de montaje" }, []) :=
  ⟨(C7_terminate ["transfer_20260101120000"] "transfer_20260101120000"
      "/mnt/g" "" 0 .posix (.ran 0 "")).1 (by decide) (by decide),
   (C7_terminate [] "transfer_20260101120000" "/mnt/g" "" 0 .posix
      (.ran 0 "")).2.1 (by decide),
   (C7_terminate ["mount_20260101120000"] "mount_20260101120000" "/mnt/g" ""
      0 .posix (.ran 0 "")).2.2.1 (by decide) (by decide) (by decide),
   (C7_terminate [] "mount_20260101120000" "/mnt/g" "fuse: not mounted" 1
      .posix (.ran 0 "")).2.2.2.1 (by decide),
   (C7_terminate [] "mount_20260101120000" "/mnt/g" "" 0 .windows
      (.ran 0 "")).2.2.2.2 (by decide)⟩

/-! ## Substring infrastructure for the parser claims -/

theorem occursIn_nil_needle (l : List Char) : occursIn [] l = true := by
  cases l <;> simp [occursIn, pfxAt]

theorem pfxAt_append_of {n u : List Char} (v : List Char)
    (h : pfxAt n u = true) : pfxAt n (u ++ v) = true := by
  induction n generalizing u with
  | nil => simp [pfxAt]
  | cons a as ih =>
    cases u with
    | nil => simp [pfxAt] at h
    | cons b bs =>
      simp only [pfxAt, Bool.and_eq_true] at h
      simp only [List.cons_append, pfxAt, Bool.and_eq_true]
      exact ⟨h.1, ih h.2⟩

theorem occursIn_append_r {n u : List Char} (v : List Char)
    (h : occursIn n u = true) : occursIn n (u ++ v) = true := by
  induction u with
  | nil =>
    cases n with
    | nil => exact occursIn_nil_needle v
    | cons a as => simp [occursIn, pfxAt] at h
  | cons c cs ih =>
    simp only [occursIn, Bool.or_eq_true] at h
    rcases h with h | h
    · simp only [List.cons_append, occursIn, Bool.or_eq_true]
      exact Or.inl (pfxAt_append_of v h)
    · simp only [List.cons_append, occursIn, Bool.or_eq_true]
      exact Or.inr (ih h)

theorem occursIn_append_l {n : List Char} (u : List Char) {v : List Char}
    (h : occursIn n v = true) : occursIn n (u ++ v) = true := by
  induction u with
  | nil => exact h
  | cons c cs ih =>
    simp only [List.cons_append, occursIn, Bool.or_eq_true]
    exact Or.inr ih

theorem occursIn_of_decomp {n l u p v : List Char} (hl : l = u ++ p ++ v)
    (h : occursIn n p = true) : occursIn n l = true := by
  subst hl
  exact occursIn_append_r v (occursIn_append_l u h)

theorem pySplitOnChar_shape (sep : Char) (l : List Char) :
    ∃ h t, pySplitOnChar sep l = h :: t
      ∧ (∃ v, l = h ++ v)
      ∧ (∀ p ∈ t, ∃ u v, l = u ++ p ++ v) := by
  induction l with
  | nil => exact ⟨[], [], rfl, ⟨[], rfl⟩, by simp⟩
  | cons c rest ih =>
    obtain ⟨h, t, hsplit, ⟨v, hv⟩, ht⟩ := ih
    by_cases hc : c = sep
    · refine ⟨[], h :: t, ?_, ⟨c :: rest, rfl⟩, ?_⟩
      · simp [pySplitOnChar, hsplit, hc]
      · intro p hp
        rcases List.mem_cons.mp hp with hp | hp
        · subst hp
          exact ⟨[c], v, by simp [hv]⟩
        · obtain ⟨u, w, hw⟩ := ht p hp
          exact ⟨c :: u, w, by simp [hw]⟩
    · refine ⟨c :: h, t, ?_, ⟨v, by simp [hv]⟩, ?_⟩
      · simp [pySplitOnChar, hsplit, hc]
      · intro p hp
        obtain ⟨u, w, hw⟩ := ht p hp
        exact ⟨c :: u, w, by simp [hw]⟩

theorem mem_pySplitOnChar_decomp {sep : Char} {l p : List Char}
    (hp : p ∈ pySplitOnChar sep l) : ∃ u v, l = u ++ p ++ v := by
  obtain ⟨h, t, hsplit, ⟨v, hv⟩, ht⟩ := pySplitOnChar_shape sep l
  rw [hsplit] at hp
  rcases List.mem_cons.mp hp with hp | hp
  · subst hp
    exact ⟨[], v, by simp [hv]⟩
  · exact ht p hp

theorem dropWhile_decomp (q : Char → Bool) (l : List Char) :
    ∃ u, l = u ++ l.dropWhile q := by
  induction l with
  | nil => exact ⟨[], rfl⟩
  | cons a as ih =>
    by_cases hq : q a
    · obtain ⟨u, hu⟩ := ih
      refine ⟨a :: u, ?_⟩
      simp only [List.dropWhile_cons, hq, if_true]
      rw [List.cons_append, ← hu]
    · refine ⟨[], ?_⟩
      simp [List.dropWhile_cons, hq]

theorem dropTrailing_decomp (q : Char → Bool) (l : List Char) :
    ∃ v, l = dropTrailing q l ++ v := by
  obtain ⟨u, hu⟩ := dropWhile_decomp q l.reverse
  refine ⟨u.reverse, ?_⟩
  conv_lhs => rw [← List.reverse_reverse l]
  rw [hu]
  simp [dropTrailing]

theorem pyStripChars_decomp (l : List Char) :
    ∃ u v, l = u ++ pyStripChars l ++ v := by
  obtain ⟨u, hu⟩ := dropWhile_decomp Char.isWhitespace l
  obtain ⟨v, hv⟩ := dropTrailing_decomp Char.isWhitespace
    (l.dropWhile Char.isWhitespace)
  refine ⟨u, v, ?_⟩
  rw [pyStripChars, List.append_assoc, ← hv, ← hu]

theorem occursIn_line_of_part {n : List Char} {line : String}
    {p : List Char} (hp : p ∈ parseParts line)
    (h : occursIn n p = true) : occursIn n line.data = true := by
  obtain ⟨u, v, huv⟩ := mem_pySplitOnChar_decomp hp
  obtain ⟨a, b, hab⟩ := pyStripChars_decomp line.data
  have : line.data = (a ++ u) ++ p ++ (v ++ b) := by
    rw [hab, huv]
    simp [List.append_assoc]
  exact occursIn_of_decomp this h

theorem getD_mem_parseParts {line : String} {i : Nat}
    (hlen : i < (parseParts line).length) :
    (parseParts line).getD i [] ∈ parseParts line := by
  rw [List.getD_eq_getElem _ _ hlen]
  exact List.getElem_mem hlen

theorem speedOpt_eq_none {line : String} (h : pyIn "Speed:" line = false) :
    speedOpt (parseParts line) = none := by
  unfold speedOpt
  by_cases hlen : 1 < (parseParts line).length
  · rw [if_pos hlen, if_neg]
    intro hocc
    have := occursIn_line_of_part (getD_mem_parseParts hlen) hocc
    rw [pyIn] at h
    exact absurd this (by simp [h])
  · rw [if_neg hlen]

theorem etaOpt_eq_none {line : String} (h : pyIn "ETA:" line = false) :
    etaOpt (parseParts line) = none := by
  unfold etaOpt
  by_cases hlen : 2 < (parseParts line).length
  · rw [if_pos hlen, if_neg]
    intro hocc
    have := occursIn_line_of_part (getD_mem_parseParts hlen) hocc
    rw [pyIn] at h
    exact absurd this (by simp [h])
  · rw [if_neg hlen]

theorem filesOpt_eq_none {line : String} (h : pyIn "Files:" line = false) :
    filesOpt (parseParts line) = none := by
  unfold filesOpt
  rw [List.find?_eq_none.mpr]
  · rfl
  · intro p hp hocc
    have := occursIn_line_of_part hp hocc
    rw [pyIn] at h
    simp [h] at this

/-- The progress line the specification uses as its worked example. -/
def sampleProgressLine : String :=
  "Transferred: 1.5 GiB / 3 GiB, 50%, Speed: 10 MiB/s, ETA: 2m30s"

/-- C3 (counterexample to the claim as stated): on the specification's own
example line the parser only updates the transferred field.  `Speed:` sits
in the third comma segment but is looked for only in the second, `ETA:`
sits in the fourth but is looked for only in the third, and since the
local variable `speed` is then unbound, the status f-string raises before
the percent loop ever runs — so speed, eta and percent keep their old
values instead of the claimed `10 MiB/s` / `2m30s` / `50`. -/
theorem C3_sample_line_counterexample :
    (update_progress_metrics (fun _ => (none : Option Unit))
      sampleProgressLine ⟨"", "", "", "", "", false, none⟩).transferred =
      "1.5 GiB / 3 GiB"
    ∧ (update_progress_metrics (fun _ => (none : Option Unit))
      sampleProgressLine ⟨"", "", "", "", "", false, none⟩).speed = ""
    ∧ "" ≠ "10 MiB/s"
    ∧ (update_progress_metrics (fun _ => (none : Option Unit))
      sampleProgressLine ⟨"", "", "", "", "", false, none⟩).eta = ""
    ∧ "" ≠ "2m30s"
    ∧ (update_progress_metrics (fun _ => (none : Option Unit))
      sampleProgressLine ⟨"", "", "", "", "", false, none⟩).barDeterminate
      = false
    ∧ (update_progress_metrics (fun _ => (none : Option Unit))
      sampleProgressLine ⟨"", "", "", "", "", false, none⟩).barValue
      = none := by
  refine ⟨by decide, by decide, by decide, by decide, by decide, by decide,
    by decide⟩

/-- C3 (amended): on the specification's example line the parser sets only
the transferred field, to `"1.5 GiB / 3 GiB"`, and leaves every other field
of the snapshot unchanged — for every float-parse function and every prior
state. -/
theorem C3_parse_sample_line {F : Type} (pf : String → Option F)
    (st : ProgressState F) :
    update_progress_metrics pf sampleProgressLine st =
      { st with transferred := "1.5 GiB / 3 GiB" } := by
  have ht : transferredOpt (parseParts sampleProgressLine) =
      some "1.5 GiB / 3 GiB" := by decide
  have hs : speedOpt (parseParts sampleProgressLine) = none := by decide
  have he : etaOpt (parseParts sampleProgressLine) = none := by decide
  have hf : filesOpt (parseParts sampleProgressLine) = none := by decide
  simp [update_progress_metrics, ht, hs, he, hf]

/-- C8: a line containing `Transferred:` but no `Speed:`, `ETA:` or
`Files:` anywhere leaves the speed, eta and files fields of the snapshot at
their previous values — last-known-value semantics. -/
theorem C8_last_known_values {F : Type} (pf : String → Option F)
    (st : ProgressState F) (line : String)
    (ht : pyIn "Transferred:" line = true)
    (hs : pyIn "Speed:" line = false)
    (he : pyIn "ETA:" line = false)
    (hf : pyIn "Files:" line = false) :
    (update_progress_metrics pf line st).speed = st.speed
    ∧ (update_progress_metrics pf line st).eta = st.eta
    ∧ (update_progress_metrics pf line st).files = st.files := by
  have h1 := speedOpt_eq_none hs
  have h2 := etaOpt_eq_none he
  have h3 := filesOpt_eq_none hf
  cases htr : transferredOpt (parseParts line) <;>
    simp [update_progress_metrics, h1, h2, h3, htr]

/-- Witness for C8 at a concrete partial line and a concrete prior
snapshot. -/
theorem C8_last_known_values_witness :
    (update_progress_metrics (fun _ => (none : Option Unit))
      "Transferred: 10 MiB / 20 MiB"
      ⟨"t0", "s0", "e0", "f0", "x0", false, none⟩).speed = "s0"
    ∧ (update_progress_metrics (fun _ => (none : Option Unit))
      "Transferred: 10 MiB / 20 MiB"
      ⟨"t0", "s0", "e0", "f0", "x0", false, none⟩).eta = "e0"
    ∧ (update_progress_metrics (fun _ => (none : Option Unit))
      "Transferred: 10 MiB / 20 MiB"
      ⟨"t0", "s0", "e0", "f0", "x0", false, none⟩).files = "f0" :=
  C8_last_known_values (fun _ => none)
    ⟨"t0", "s0", "e0", "f0", "x0", false, none⟩
    "Transferred: 10 MiB / 20 MiB" (by decide) (by decide) (by decide)
    (by decide)
